import Mathlib

/-!
Formal model of the DarkAlpha phase-one trading-signal engine.

This development shallowly embeds the parts of the code base that the
verified properties talk about: the pure calculation helpers
(`calculations.py`), the per-symbol rolling state of the data store
(`data/datastore.py`), the staleness evaluation and stream-recovery step of
the source manager (`data/source_manager.py`), the derivatives freshness
gate and card-emission tail of the signal service (`service.py`), the risk
engine (`risk_engine.py`), the volatility-breakout strategy
(`strategies/vol_breakout.py`) and the arbitrator
(`engine/arbitrator.py`).

Modelling conventions: Python floats are rationals (`ℚ`), timestamps are
integral milliseconds (`ℤ`, matching the `*_ms` convention of the source;
`dt_to_ms` is then the identity and is inlined), wall-clock seconds used in
the risk engine and arbitrator are `ℚ`.  Fallible Python code (raising
`ValueError`, `AttributeError`, `TypeError`) is embedded in `Except String`.
Python attribute access and `dataclasses.replace` on a frozen dataclass are
modelled against the literal field list of the dataclass, so that access to
a field the dataclass does not declare is an error, exactly as in CPython.
-/

namespace DarkAlpha

/-- A 1-minute candle `(open, high, low, close)` — `Candle` in
`calculations.py`.  `open` is a Lean keyword, hence the primed field. -/
structure Candle where
  open' : ℚ
  high : ℚ
  low : ℚ
  close : ℚ
deriving DecidableEq

/-- The candle built from one window-sized chunk:
`(chunk[0].open, max(c.high), min(c.low), chunk[-1].close)` as in the body
of the loop of `aggregate_klines_to_window`.  The empty case is unreachable
(chunks always have the window size, which is positive at every call). -/
def aggChunk (chunk : List Candle) : Candle :=
  match chunk with
  | [] => ⟨0, 0, 0, 0⟩
  | c :: rest =>
    { open' := c.open'
      high := rest.foldl (fun m x => max m x.high) c.high
      low := rest.foldl (fun m x => min m x.low) c.low
      close := (rest.getLastD c).close }

/-- The chunking loop of `aggregate_klines_to_window`:
`for i in range(window, len(candles_1m) + 1, window): chunk = candles_1m[i - window : i]`
takes consecutive `window`-sized chunks from the FRONT of the list while a
full chunk remains.  (`window = 0` would make `range` raise in Python; it
is outside every property proved here and modelled as the empty result.) -/
def aggGroups (window : ℕ) (l : List Candle) : List Candle :=
  if h : 0 < window ∧ window ≤ l.length then
    aggChunk (l.take window) :: aggGroups window (l.drop window)
  else []
termination_by l.length
decreasing_by simp only [List.length_drop]; omega

/-- `aggregate_klines_to_window(candles_1m, window)` from `calculations.py`
lines 28-43. -/
def aggregate_klines_to_window (candles_1m : List Candle) (window : ℕ) : List Candle :=
  if candles_1m.length < window then [] else aggGroups window candles_1m

/-- Index-wise statement of what the source computes: chunk `i` covers the
candles at positions `[i·w, i·w + w)`, so the `len mod w` trailing candles
are dropped. -/
def aggregate_front_spec (l : List Candle) (w : ℕ) : List Candle :=
  (List.range (l.length / w)).map (fun i => aggChunk ((l.drop (i * w)).take w))

/-- The grouping the claim describes: chunks aligned from the END of the
list, the incomplete remainder of `len mod w` candles at the FRONT dropped. -/
def aggregate_end_spec (l : List Candle) (w : ℕ) : List Candle :=
  if l.length < w then [] else aggGroups w (l.drop (l.length % w))

/-- `statistics.mean` on a nonempty list (all call sites pass nonempty
lists). -/
def listMean (l : List ℚ) : ℚ := l.sum / l.length

/-- The square of `statistics.pstdev`: population variance.
`pstdev l = Real.sqrt (pvarianceQ l)`. -/
def pvarianceQ (l : List ℚ) : ℚ :=
  ((l.map fun x => (x - listMean l) ^ 2).sum) / l.length

/-- The baseline slice `oi_windows[:-1][-baseline_windows:]` of
`compute_oi_zscore_15m`.  Python `xs[-k:]` is the whole list when `k = 0`
(the slice degenerates to `xs[0:]`) or when `k ≥ len xs`. -/
def zscoreBaseline (oi_windows : List ℚ) (baseline_windows : ℕ) : List ℚ :=
  let dropped := oi_windows.dropLast
  if baseline_windows = 0 then dropped
  else dropped.drop (dropped.length - baseline_windows)

/-- `compute_oi_zscore_15m(oi_windows, baseline_windows)` from
`calculations.py` lines 91-101.  The source computes
`sigma = pstdev(baseline)` and tests `sigma == 0`; since
`sigma = √(pvariance)` and the population variance is nonnegative, that
test holds iff `pvarianceQ baseline = 0` (see
`sqrt_pvariance_eq_zero_iff` below), which keeps the branch decidable. -/
noncomputable def compute_oi_zscore_15m (oi_windows : List ℚ) (baseline_windows : ℕ) : Option ℝ :=
  if oi_windows.length < 2 then none
  else
    let current := oi_windows.getLastD 0
    let baseline := zscoreBaseline oi_windows baseline_windows
    if baseline.length < 2 then none
    else if pvarianceQ baseline = 0 then some 0
    else some (((current : ℝ) - (listMean baseline : ℝ)) / Real.sqrt (pvarianceQ baseline))

/-- `calculate_position_usdt(entry, stop, max_risk_usdt)` from
`calculations.py` lines 74-78; the local is `risk_ratio` in the source.
`raise ValueError(...)` becomes `Except.error`. -/
def calculate_position_usdt (entry stop max_risk_usdt : ℚ) : Except String ℚ :=
  let rr := |entry - stop| / entry
  if rr ≤ 0 then Except.error "Risk ratio must be positive"
  else Except.ok (max_risk_usdt / rr)

/-! ## DataStore (`data/datastore.py`)

Per-symbol kline state: the `deque(maxlen=max_klines)` buffer together with
`last_kline_close_ts` and `last_ws_kline_open_time`.  The price buffer and
the derivatives slice are independent of the verified kline operations and
are omitted from this state (they appear in `SymbolSnapshot` below). -/

/-- The kline slice of the per-symbol mutable state of `DataStore`. -/
structure SymState where
  klines_1m : List Candle
  last_kline_close_ts : Option ℤ
  last_ws_kline_open_time : Option ℤ
deriving DecidableEq

/-- The state `DataStore.__init__` creates for each symbol. -/
def initSymState : SymState := ⟨[], none, none⟩

/-- `deque.append` under `maxlen=cap`: when the deque is full the oldest
(leftmost) entry is discarded. -/
def boundedAppend (cap : ℕ) (q : List Candle) (c : Candle) : List Candle :=
  let q2 := q ++ [c]
  q2.drop (q2.length - cap)

/-- `DataStore.merge_klines(symbol, klines, ts)` (lines 72-80): empty input
returns before touching anything; otherwise `clear()` then `extend(klines)`
into the `maxlen=cap` deque (which keeps the last `cap` entries), stamp
`last_kline_close_ts`, reset `last_ws_kline_open_time` to `None`. -/
def merge_klines (cap : ℕ) (s : SymState) (klines : List Candle) (ts : ℤ) : SymState :=
  if klines = [] then s
  else
    { klines_1m := klines.drop (klines.length - cap)
      last_kline_close_ts := some ts
      last_ws_kline_open_time := none }

/-- `DataStore.upsert_ws_kline(symbol, candle, open_time_ms, is_closed, ts)`
(lines 82-100): replace the tail in place when the buffer is nonempty and
the recorded last open time matches, else append and record the open time;
`last_kline_close_ts` is stamped only when `is_closed`. -/
def upsert_ws_kline (cap : ℕ) (s : SymState) (candle : Candle) (open_time_ms : ℤ)
    (is_closed : Bool) (ts : ℤ) : SymState :=
  let s1 :=
    if s.klines_1m ≠ [] ∧ s.last_ws_kline_open_time = some open_time_ms then
      { s with klines_1m := s.klines_1m.dropLast ++ [candle] }
    else
      { s with klines_1m := boundedAppend cap s.klines_1m candle
               last_ws_kline_open_time := some open_time_ms }
  if is_closed then { s1 with last_kline_close_ts := some ts } else s1

/-- A kline mutation on the store: the two operations of the source that
touch the kline buffer. -/
inductive DataStoreOp where
  | merge (klines : List Candle) (ts : ℤ)
  | upsert (candle : Candle) (open_time_ms : ℤ) (is_closed : Bool) (ts : ℤ)

/-- Apply one operation. -/
def applyOp (cap : ℕ) (s : SymState) : DataStoreOp → SymState
  | .merge ks ts => merge_klines cap s ks ts
  | .upsert c ot closed ts => upsert_ws_kline cap s c ot closed ts

/-- Apply a sequence of operations in order. -/
def applyOps (cap : ℕ) (ops : List DataStoreOp) (s : SymState) : SymState :=
  ops.foldl (applyOp cap) s

/-- `SymbolSnapshot` from `data/datastore.py` lines 17-32, field for field.
Timestamps are milliseconds (`dt_to_ms` of the source datetimes). -/
structure SymbolSnapshot where
  symbol : String
  price : Option ℚ
  klines_1m : List Candle
  last_price_ts : Option ℤ
  last_kline_close_ts : Option ℤ
  data_source_mode : String
  last_funding_rate : Option ℚ
  next_funding_time_ms : Option ℤ
  mark_price : Option ℚ
  funding_rate_history : List (ℚ × ℤ)
  open_interest : Option ℚ
  open_interest_ts : Option ℤ
  funding_ts : Option ℤ
  open_interest_series : List (ℤ × ℚ)
deriving DecidableEq

/-- The literal field list of the frozen dataclass `SymbolSnapshot`
(`data/datastore.py` lines 17-32).  Attribute access on the dataclass is
resolved against exactly these names. -/
def SymbolSnapshot.pyFields : List String :=
  ["symbol", "price", "klines_1m", "last_price_ts", "last_kline_close_ts",
   "data_source_mode", "last_funding_rate", "next_funding_time_ms",
   "mark_price", "funding_rate_history", "open_interest",
   "open_interest_ts", "funding_ts", "open_interest_series"]

/-- The attribute access `snap.last_kline_recv_ts` performed by
`SourceManager._evaluate_staleness` (source_manager.py line 473) and
`_log_health_if_needed` (line 520).  `SymbolSnapshot` declares no such
field, so in CPython the access raises `AttributeError`; the `ok` branch is
dead (the membership test is decidably false against
`SymbolSnapshot.pyFields`). -/
def snapshotLastKlineRecvTs (snap : SymbolSnapshot) : Except String (Option ℤ) :=
  if "last_kline_recv_ts" ∈ SymbolSnapshot.pyFields then
    Except.ok snap.last_kline_close_ts
  else Except.error "AttributeError: SymbolSnapshot has no attribute last_kline_recv_ts"

/-! ## Source manager (`data/source_manager.py`) -/

/-- `SourceManager.raw_age_ms(now_ms, ts_ms)` (lines 287-291): `None`
propagates, otherwise `now_ms - ts_ms`. -/
def raw_age_ms (now_ms : ℤ) (ts_ms : Option ℤ) : Option ℤ :=
  ts_ms.map fun t => now_ms - t

/-- Body of the per-symbol iteration of `SourceManager._evaluate_staleness`
(lines 470-487).  Both raw ages are computed before either threshold test,
exactly as in the source; the second one reads `snap.last_kline_recv_ts`.
Returns the switch reason when a threshold trips, `none` to continue the
loop. -/
def evaluateStalenessSymbol (stale_seconds kline_stale_ms now_ms : ℤ)
    (snap : SymbolSnapshot) : Except String (Option String) := do
  let price_age_raw := raw_age_ms now_ms snap.last_price_ts
  let recv_ts ← snapshotLastKlineRecvTs snap
  let kline_recv_raw := raw_age_ms now_ms recv_ts
  match price_age_raw with
  | some a =>
    if stale_seconds * 1000 < a then return some "stale"
    else
      match kline_recv_raw with
      | some k => if kline_stale_ms < k then return some "kline_stale" else return none
      | none => return none
  | none =>
    match kline_recv_raw with
    | some k => if kline_stale_ms < k then return some "kline_stale" else return none
    | none => return none

/-- The symbol loop of `_evaluate_staleness`: the first tripped symbol
aborts the loop (the source switches mode and returns). -/
def evaluateStalenessGo (stale_seconds kline_stale_ms now_ms : ℤ) :
    List SymbolSnapshot → Except String (Option (String × String))
  | [] => Except.ok none
  | snap :: rest => do
    match ← evaluateStalenessSymbol stale_seconds kline_stale_ms now_ms snap with
    | some reason => return some (reason, snap.symbol)
    | none => evaluateStalenessGo stale_seconds kline_stale_ms now_ms rest

/-- `SourceManager._evaluate_staleness` (lines 465-487) over the snapshots
of the configured symbols: a no-op unless the mode is "ws"; returns the
`(reason, symbol)` of the switch to rest, if any. -/
def evaluate_staleness (mode : String) (stale_seconds kline_stale_ms now_ms : ℤ)
    (snaps : List SymbolSnapshot) : Except String (Option (String × String)) :=
  if mode ≠ "ws" then Except.ok none
  else evaluateStalenessGo stale_seconds kline_stale_ms now_ms snaps

/-- The fields of `SourceManager` that `_attempt_ws_recover` reads or
writes, plus the mirrored `DataStore` mode field set by `_switch_mode`. -/
structure SourceManagerState where
  mode : String
  preferred_mode : String
  ws_connected : Bool
  ws_good_ticks : ℕ
  ws_backoff : ℚ
  ws_next_retry_at : ℚ
  ws_backoff_min : ℚ
  ws_backoff_max : ℚ
  ws_recover_good_ticks : ℕ
  datastore_mode : String
deriving DecidableEq

/-- `SourceManager._switch_mode` (lines 489-495): a no-op when the modes
already agree, otherwise set the manager mode and the datastore mode. -/
def switchMode (s : SourceManagerState) (to_mode : String) : SourceManagerState :=
  if s.mode = to_mode then s
  else { s with mode := to_mode, datastore_mode := to_mode }

/-- Outcome of `ws_client.connect()` on this tick. -/
inductive WsAttempt where
  | success
  | failure
deriving DecidableEq

/-- Outcome of `ws_client.read_events()` followed by `_apply_ws_events`:
either the number of fresh price ticks applied, or a raised exception. -/
inductive WsReadResult where
  | events (fresh_ticks : ℕ)
  | failure
deriving DecidableEq

/-- The tail of `SourceManager._attempt_ws_recover` (lines 432-448) that
runs once a connection is in hand: read events (a failure backs off and
returns), accumulate fresh ticks, and when the threshold is met perform the
state sync and switch to ws only if it succeeded. -/
def wsRecoverAfterConnect (s1 : SourceManagerState) (now_mono : ℚ)
    (read_result : WsReadResult) (state_sync_ok : Bool) : SourceManagerState :=
  match read_result with
  | .failure =>
    { s1 with ws_connected := false
              ws_next_retry_at := now_mono + s1.ws_backoff
              ws_backoff := min (s1.ws_backoff * 2) s1.ws_backoff_max }
  | .events fresh =>
    let s2 := if 0 < fresh then { s1 with ws_good_ticks := s1.ws_good_ticks + fresh } else s1
    if s2.ws_recover_good_ticks ≤ s2.ws_good_ticks then
      if state_sync_ok then { switchMode s2 "ws" with ws_good_ticks := 0 }
      else s2
    else s2

/-- `SourceManager._attempt_ws_recover(now_mono)` (lines 416-448).
`connect_result` is the outcome of `ws_client.connect()` (consulted only
when disconnected), `read_result` of `read_events`, and `state_sync_ok` of
`_safe_state_sync("recovered")` (lines 450-456: `True` iff
`_state_sync_from_rest` did not raise). -/
def attempt_ws_recover (s : SourceManagerState) (now_mono : ℚ)
    (connect_result : WsAttempt) (read_result : WsReadResult)
    (state_sync_ok : Bool) : SourceManagerState :=
  if s.preferred_mode ≠ "ws" then s
  else if now_mono < s.ws_next_retry_at then s
  else
    match
      (if s.ws_connected then some s
       else
         match connect_result with
         | .success => some { s with ws_connected := true, ws_backoff := s.ws_backoff_min }
         | .failure => none) with
    | none =>
      { s with ws_next_retry_at := now_mono + s.ws_backoff
               ws_backoff := min (s.ws_backoff * 2) s.ws_backoff_max }
    | some s1 => wsRecoverAfterConnect s1 now_mono read_result state_sync_ok

/-! ## ProposalCard and the signal-service gate (`models.py`, `service.py`) -/

/-- `ProposalCard` from `models.py` lines 7-21, field for field.  Note: the
dataclass declares NO `oi_status` field. -/
structure ProposalCard where
  symbol : String
  strategy : String
  side : String
  entry : ℚ
  stop : ℚ
  leverage_suggest : ℤ
  position_usdt : ℚ
  max_risk_usdt : ℚ
  ttl_minutes : ℤ
  rationale : String
  created_at : String
  priority : ℤ
  confidence : ℚ
deriving DecidableEq

/-- The literal field list of the frozen dataclass `ProposalCard`
(`models.py` lines 7-21). -/
def ProposalCard.pyFields : List String :=
  ["symbol", "strategy", "side", "entry", "stop", "leverage_suggest",
   "position_usdt", "max_risk_usdt", "ttl_minutes", "rationale",
   "created_at", "priority", "confidence"]

/-- `dataclasses.replace(card, oi_status=v)`: `replace` rejects keyword
arguments that are not fields of the dataclass with `TypeError`.  The `ok`
branch is dead (the membership test against `ProposalCard.pyFields` is
decidably false). -/
def dataclassReplaceOiStatus (card : ProposalCard) (oi_status : String) :
    Except String ProposalCard :=
  if "oi_status" ∈ ProposalCard.pyFields then Except.ok card
  else Except.error "TypeError: replace() got an unexpected keyword argument oi_status"

/-- `DerivativesGate` from `service.py` lines 97-103. -/
structure DerivativesGate where
  allow : Bool
  oi_status : String
  funding_raw_age_ms : Option ℤ
  oi_raw_age_ms : Option ℤ
  reason : String
deriving DecidableEq

/-- `derivatives_are_fresh(snapshot, now_ms_corrected, funding_stale_ms,
oi_stale_ms)` from `service.py` lines 105-163. -/
def derivatives_are_fresh (snapshot : SymbolSnapshot)
    (now_ms_corrected funding_stale_ms oi_stale_ms : ℤ) : DerivativesGate :=
  let funding_raw_age_ms := raw_age_ms now_ms_corrected snapshot.funding_ts
  let oi_raw_age_ms := raw_age_ms now_ms_corrected snapshot.open_interest_ts
  match funding_raw_age_ms with
  | none =>
    { allow := false, oi_status := "unknown", funding_raw_age_ms := none
      oi_raw_age_ms := oi_raw_age_ms, reason := "funding_missing" }
  | some fr =>
    let funding_stale := funding_stale_ms < fr
    let oi_status :=
      match oi_raw_age_ms with
      | none => "unknown"
      | some oir => if oi_stale_ms < oir then "stale" else "fresh"
    { allow := !funding_stale, oi_status := oi_status
      funding_raw_age_ms := some fr, oi_raw_age_ms := oi_raw_age_ms
      reason := if funding_stale then "funding_stale" else "ok" }

/-- The emission tail of `SignalService.evaluate_symbol` (`service.py`
lines 440-443): after the risk gate allows, the source records the trigger
and returns `replace(card, oi_status=derivatives_gate.oi_status)`. -/
def evaluateSymbolEmit (card : ProposalCard) (gate : DerivativesGate) :
    Except String ProposalCard :=
  dataclassReplaceOiStatus card gate.oi_status

/-! ## Risk engine (`risk_engine.py`) -/

/-- `RiskDecision` from `risk_engine.py` lines 9-12. -/
structure RiskDecision where
  allowed : Bool
  reason : String
deriving DecidableEq

/-- The constructor parameters of `RiskEngine` that `evaluate` consults. -/
structure RiskEngineConfig where
  max_daily_loss_usdt : ℚ
  max_cards_per_day : ℕ
  cooldown_after_trigger_minutes : ℤ
  kill_switch : Bool

/-- `RiskEngine.evaluate(symbol, now)` (lines 37-57).  The persisted state
is abstracted to the values `evaluate` reads from it for today's date key
and for the queried symbol: the resolved realized loss, today's
`cards_count`, and `last_trigger_by_symbol[symbol]` (absent → `none`).
Times are seconds; `timedelta(minutes=m)` is `m * 60`.  The Python
truthiness test `if cooldown_until` is always true for a datetime, so only
`None`-ness matters. -/
def RiskEngine.evaluate (cfg : RiskEngineConfig) (realized_loss : ℚ)
    (cards_count : ℕ) (last_trigger : Option ℚ) (now : ℚ) : RiskDecision :=
  if cfg.kill_switch then ⟨false, "kill_switch_enabled"⟩
  else if cfg.max_daily_loss_usdt ≤ realized_loss then ⟨false, "max_daily_loss_exceeded"⟩
  else if cfg.max_cards_per_day ≤ cards_count then ⟨false, "max_cards_per_day_exceeded"⟩
  else
    match last_trigger with
    | some t =>
      if now < t + (cfg.cooldown_after_trigger_minutes : ℚ) * 60 then
        ⟨false, "symbol_cooldown_active"⟩
      else ⟨true, "ok"⟩
    | none => ⟨true, "ok"⟩

/-! ## VolBreakout strategy (`strategies/vol_breakout.py`) -/

/-- The feature bundle `SignalContext` from `engine/signal_context.py`,
field for field (timestamps in seconds resp. milliseconds; the optional
z-score and delta are the float values of the source). -/
structure SignalContext where
  symbol : String
  timestamp : ℚ
  price : ℚ
  klines_1m : List Candle
  return_5m : ℚ
  atr_15m : ℚ
  atr_15m_baseline : ℚ
  funding_rate : ℚ
  open_interest : ℚ
  mark_price : ℚ
  open_interest_zscore_15m : Option ℚ
  open_interest_delta_15m : Option ℚ
  last_kline_close_ts : Option ℤ

/-- The dataclass fields of `VolBreakoutStrategy`. -/
structure VolBreakoutStrategy where
  return_threshold : ℚ
  atr_spike_multiplier : ℚ
  leverage_suggest : ℤ
  max_risk_usdt : ℚ
  ttl_minutes : ℤ
  priority : ℤ
  name : String

/-- `side = "LONG" if signal_context.return_5m >= 0 else "SHORT"`. -/
def volBreakoutSide (sc : SignalContext) : String :=
  if 0 ≤ sc.return_5m then "LONG" else "SHORT"

/-- `stop = entry - 1.2*atr` for LONG, `entry + 1.2*atr` for SHORT. -/
def volBreakoutStop (sc : SignalContext) : ℚ :=
  if volBreakoutSide sc = "LONG" then sc.price - (12 / 10) * sc.atr_15m
  else sc.price + (12 / 10) * sc.atr_15m

/-- `VolBreakoutStrategy.generate(signal_context)` (lines 21-59).  The call
to `calculate_position_usdt` is NOT wrapped in `try/except` in the source,
so its `ValueError` propagates out of `generate` (the `Except.error`
branch).  The `rationale` f-string and the `created_at` wall-clock stamp of
`ProposalCard.create` are opaque strings here; no verified property reads
them. -/
def VolBreakoutStrategy.generate (st : VolBreakoutStrategy) (sc : SignalContext) :
    Except String (Option ProposalCard) :=
  let return_trigger := st.return_threshold < |sc.return_5m|
  let atr_trigger := sc.atr_15m_baseline * st.atr_spike_multiplier < sc.atr_15m
  if ¬(return_trigger ∨ atr_trigger) then Except.ok none
  else
    let side := volBreakoutSide sc
    let entry := sc.price
    let stop := volBreakoutStop sc
    match calculate_position_usdt entry stop st.max_risk_usdt with
    | Except.error e => Except.error e
    | Except.ok position_usdt =>
      let score_return := |sc.return_5m| / max st.return_threshold (1 / 1000000000)
      let score_atr := sc.atr_15m / max sc.atr_15m_baseline (1 / 1000000000)
      let confidence := min 100 (40 + score_return * 20 + score_atr * 10)
      Except.ok (some
        { symbol := sc.symbol, strategy := st.name, side := side, entry := entry
          stop := stop, leverage_suggest := st.leverage_suggest
          position_usdt := position_usdt, max_risk_usdt := st.max_risk_usdt
          ttl_minutes := st.ttl_minutes, rationale := "triggered"
          created_at := "", priority := st.priority, confidence := confidence })

/-! ## Arbitrator (`engine/arbitrator.py`) -/

/-- `ArbitratorConfig` from `engine/arbitrator.py` lines 11-15. -/
structure ArbitratorConfig where
  dedupe_window_seconds : ℤ
  entry_similar_pct : ℚ
  stop_similar_pct : ℚ

/-- The sort key `(c.priority, c.confidence, -c.ttl_minutes)` of
`choose_best` and `_dedupe_similar`. -/
def sortKey (c : ProposalCard) : ℤ × ℚ × ℤ := (c.priority, c.confidence, -c.ttl_minutes)

/-- Lexicographic `≤` on the key triple — Python tuple comparison. -/
def keyLe (a b : ℤ × ℚ × ℤ) : Prop :=
  a.1 < b.1 ∨ (a.1 = b.1 ∧ (a.2.1 < b.2.1 ∨ (a.2.1 = b.2.1 ∧ a.2.2 ≤ b.2.2)))

instance (a b : ℤ × ℚ × ℤ) : Decidable (keyLe a b) := by
  unfold keyLe; infer_instance

/-- The order in which `sorted(cards, key=..., reverse=True)` lists cards:
`a` precedes (or ties) `b` iff `a`'s key is lexicographically at least
`b`'s. -/
def cardDescLe (a b : ProposalCard) : Prop := keyLe (sortKey b) (sortKey a)

instance : DecidableRel cardDescLe := fun a b => by
  unfold cardDescLe; infer_instance

/-- The similarity test of `_dedupe_similar` (lines 74-77): same side, and
entries or stops within the configured relative tolerance (divisors
defended with `max(·, 1e-9)` as in the source). -/
def isSimilar (cfg : ArbitratorConfig) (existing card : ProposalCard) : Prop :=
  existing.side = card.side ∧
    (|existing.entry - card.entry| / max existing.entry (1 / 1000000000) < cfg.entry_similar_pct ∨
     |existing.stop - card.stop| / max |existing.stop| (1 / 1000000000) < cfg.stop_similar_pct)

instance (cfg : ArbitratorConfig) (e c : ProposalCard) : Decidable (isSimilar cfg e c) := by
  unfold isSimilar; infer_instance

/-- The accumulation loop of `_dedupe_similar`: walk the sorted candidates,
drop any card similar to an already-kept one, keep the rest in order. -/
def dedupeKeep (cfg : ArbitratorConfig) (kept : List ProposalCard) :
    List ProposalCard → List ProposalCard
  | [] => kept
  | card :: rest =>
    if ∃ e ∈ kept, isSimilar cfg e card then dedupeKeep cfg kept rest
    else dedupeKeep cfg (kept ++ [card]) rest

/-- `Arbitrator._dedupe_similar(cards)` (lines 69-87).  Python `sorted` is
a stable sort; `List.insertionSort` is stable for the same total preorder,
and a stable sort is uniquely determined, so this is exactly the list the
source iterates. -/
def dedupe_similar (cfg : ArbitratorConfig) (cards : List ProposalCard) :
    List ProposalCard :=
  dedupeKeep cfg [] (List.insertionSort cardDescLe cards)

/-- The per-symbol dedupe-window test of `choose_best` (lines 44-47):
`last_sent is not None and (now - last_sent).total_seconds() <= dedupe_window_seconds`. -/
def dedupeWindowHit (cfg : ArbitratorConfig) (last_sent : Option ℚ)
    (ctx_timestamp : ℚ) : Bool :=
  match last_sent with
  | some t => decide (ctx_timestamp - t ≤ (cfg.dedupe_window_seconds : ℚ))
  | none => false

/-- `Arbitrator.choose_best(cards, ctx)` (lines 23-67).  `ctx` enters only
through `ctx.timestamp` (the `now` of the dedupe-window test) and
`ctx.symbol`, which selects `last_sent = last_sent_lookup(ctx.symbol)`;
both are passed directly. -/
def choose_best (cfg : ArbitratorConfig) (last_sent : Option ℚ) (ctx_timestamp : ℚ)
    (cards : List ProposalCard) : Option ProposalCard :=
  if cards = [] then none
  else if dedupeWindowHit cfg last_sent ctx_timestamp then none
  else
    let selected := dedupe_similar cfg cards
    if selected = [] then none
    else (List.insertionSort cardDescLe selected).head?

/-! ## Concrete instances used to evaluate the embedded operations -/

/-- Three distinguishable candles. -/
def exCandles3 : List Candle := [⟨1, 1, 1, 1⟩, ⟨2, 2, 2, 2⟩, ⟨3, 3, 3, 3⟩]

/-- A `VolBreakoutStrategy` with the documented defaults
(`return_threshold=0.012`, `atr_spike_multiplier=2.0`). -/
def exVolBreakout : VolBreakoutStrategy := ⟨12 / 1000, 2, 50, 10, 15, 0, "vol_breakout_card"⟩

/-- A context whose 5-minute return (2%) trips the return trigger while
`atr_15m = 0`, so the computed stop equals the entry. -/
def exContextZeroAtr : SignalContext :=
  ⟨"BTCUSDT", 0, 100, [], 2 / 100, 0, 1, 0, 0, 100, none, none, none⟩

/-- An arbitrator configuration with 1% similarity tolerances. -/
def exArbConfig : ArbitratorConfig := ⟨300, 1 / 100, 1 / 100⟩

/-- Two distinct cards that tie on the whole sort key and are similar
(same side, identical entries). -/
def exCardA : ProposalCard :=
  ⟨"BTCUSDT", "strategy_a", "LONG", 100, 99, 50, 100, 10, 10, "r", "t", 80, 70⟩

/-- See `exCardA`; differs only in the strategy name. -/
def exCardB : ProposalCard :=
  ⟨"BTCUSDT", "strategy_b", "LONG", 100, 99, 50, 100, 10, 10, "r", "t", 80, 70⟩

/-- A card whose sort key differs from `exCardA`'s in every component. -/
def exCardLo : ProposalCard :=
  ⟨"BTCUSDT", "strategy_lo", "SHORT", 50, 51, 50, 100, 10, 12, "r", "t", 60, 40⟩

/-- A snapshot with present funding data (`funding_ts = some 0`) and a
missing OI timestamp. -/
def exSnapshot : SymbolSnapshot :=
  ⟨"BTCUSDT", some 100, exCandles3, some 0, some 0, "ws", some 0, some 0,
   some 100, [], some 1, none, some 0, []⟩

/-- A recovery-eligible source-manager state: rest mode, ws preferred,
connected, two accumulated good ticks against a threshold of three. -/
def exSMState : SourceManagerState :=
  ⟨"rest", "ws", true, 2, 1, 0, 1, 60, 3, "rest"⟩

/-! # Theorems -/

/-- Claim C2 (code bug): in ws mode the staleness evaluation never reaches
either threshold comparison: the source reads `snap.last_kline_recv_ts`
(source_manager.py line 473), a field the frozen dataclass
`SymbolSnapshot` does not declare, so the first symbol raises
`AttributeError` and no mode switch — neither "stale" nor "kline_stale" —
can ever happen. -/
theorem evaluate_staleness_raises_attribute_error
    (stale_seconds kline_stale_ms now_ms : ℤ) (snap : SymbolSnapshot)
    (rest : List SymbolSnapshot) :
    evaluate_staleness "ws" stale_seconds kline_stale_ms now_ms (snap :: rest)
      = Except.error "AttributeError: SymbolSnapshot has no attribute last_kline_recv_ts" := rfl

/-- Claim C7: with the kill switch off, realized loss below the cap and the
daily card count below its cap, `evaluate` answers `symbol_cooldown_active`
exactly when a last trigger is recorded and `now` is before
`last_trigger + cooldown`, and `ok` otherwise. -/
theorem risk_engine_cooldown_spec (cfg : RiskEngineConfig) (realized_loss : ℚ)
    (cards_count : ℕ) (last_trigger : Option ℚ) (now : ℚ)
    (hkill : cfg.kill_switch = false)
    (hloss : realized_loss < cfg.max_daily_loss_usdt)
    (hcards : cards_count < cfg.max_cards_per_day) :
    (RiskEngine.evaluate cfg realized_loss cards_count last_trigger now
        = ⟨false, "symbol_cooldown_active"⟩
      ↔ ∃ t, last_trigger = some t
          ∧ now < t + (cfg.cooldown_after_trigger_minutes : ℚ) * 60) ∧
    (RiskEngine.evaluate cfg realized_loss cards_count last_trigger now
        = ⟨true, "ok"⟩
      ↔ ¬ ∃ t, last_trigger = some t
          ∧ now < t + (cfg.cooldown_after_trigger_minutes : ℚ) * 60) := by
  unfold RiskEngine.evaluate
  rw [hkill]
  simp only [Bool.false_eq_true, if_false, if_neg (not_le.mpr hloss),
    if_neg (not_le.mpr hcards)]
  cases last_trigger with
  | none => simp
  | some t =>
    by_cases h : now < t + (cfg.cooldown_after_trigger_minutes : ℚ) * 60
    · simp [h]
    · simp [h]

/-- Witness for C7 at the spec scenario: trigger at `T = 0`, 30-minute
cooldown, evaluation at `T + 5min = 300s` is blocked. -/
theorem risk_engine_cooldown_spec_witness :
    RiskEngine.evaluate ⟨30, 5, 30, false⟩ 0 0 (some 0) 300
      = ⟨false, "symbol_cooldown_active"⟩ :=
  (risk_engine_cooldown_spec ⟨30, 5, 30, false⟩ 0 0 (some 0) 300 rfl (by norm_num)
      (by norm_num)).1.mpr ⟨0, rfl, by norm_num⟩

/-- Claim C10: `merge_klines` with an empty list changes nothing; with a
nonempty list it replaces the whole buffer with the supplied klines
(bounded by the deque capacity — verbatim when they fit), stamps
`last_kline_close_ts` with the supplied timestamp, resets the recorded ws
open time to `None`, and therefore the next streaming upsert takes the
append branch rather than replacing the tail. -/
theorem merge_klines_spec (cap : ℕ) (s : SymState) (ts : ℤ) :
    merge_klines cap s [] ts = s ∧
    ∀ klines : List Candle, klines ≠ [] →
      (merge_klines cap s klines ts).klines_1m = klines.drop (klines.length - cap) ∧
      (klines.length ≤ cap → (merge_klines cap s klines ts).klines_1m = klines) ∧
      (merge_klines cap s klines ts).last_kline_close_ts = some ts ∧
      (merge_klines cap s klines ts).last_ws_kline_open_time = none ∧
      ∀ (c : Candle) (ot : ℤ) (closed : Bool) (ts2 : ℤ),
        (upsert_ws_kline cap (merge_klines cap s klines ts) c ot closed ts2).klines_1m
            = boundedAppend cap (merge_klines cap s klines ts).klines_1m c ∧
        (upsert_ws_kline cap (merge_klines cap s klines ts) c ot closed ts2).last_ws_kline_open_time
            = some ot := by
  refine ⟨by simp [merge_klines], ?_⟩
  intro klines hne
  have hmerge : merge_klines cap s klines ts =
      ⟨klines.drop (klines.length - cap), some ts, none⟩ := by
    simp [merge_klines, hne]
  refine ⟨by rw [hmerge], ?_, by rw [hmerge], by rw [hmerge], ?_⟩
  · intro hle
    rw [hmerge]
    simp [Nat.sub_eq_zero_of_le hle]
  · intro c ot closed ts2
    rw [hmerge]
    unfold upsert_ws_kline
    cases closed <;> simp

/-- Witness for C10: a nonempty merge at capacity 1440 replaces the buffer,
and a following upsert appends (records the new open time). -/
theorem merge_klines_spec_witness :
    (merge_klines 1440 ⟨[⟨1, 1, 1, 1⟩], some 5, some 7⟩ [⟨2, 2, 2, 2⟩] 9).klines_1m
        = [⟨2, 2, 2, 2⟩] ∧
    (upsert_ws_kline 1440 (merge_klines 1440 ⟨[⟨1, 1, 1, 1⟩], some 5, some 7⟩ [⟨2, 2, 2, 2⟩] 9)
        ⟨3, 3, 3, 3⟩ 42 false 10).last_ws_kline_open_time = some 42 := by
  have h := (merge_klines_spec 1440 ⟨[⟨1, 1, 1, 1⟩], some 5, some 7⟩ 9).2 [⟨2, 2, 2, 2⟩]
    (by decide)
  exact ⟨h.2.1 (by decide), (h.2.2.2.2 ⟨3, 3, 3, 3⟩ 42 false 10).2⟩

/-- The replace branch of `upsert_ws_kline` in closed form. -/
lemma upsert_replace_branch (cap : ℕ) (s : SymState) (c : Candle) (ot : ℤ)
    (closed : Bool) (ts : ℤ) (hne : s.klines_1m ≠ [])
    (hopen : s.last_ws_kline_open_time = some ot) :
    upsert_ws_kline cap s c ot closed ts =
      { klines_1m := s.klines_1m.dropLast ++ [c]
        last_kline_close_ts := if closed then some ts else s.last_kline_close_ts
        last_ws_kline_open_time := s.last_ws_kline_open_time } := by
  unfold upsert_ws_kline
  rw [if_pos (show s.klines_1m ≠ [] ∧ s.last_ws_kline_open_time = some ot from
    ⟨hne, hopen⟩)]
  cases closed <;> rfl

/-- The append branch of `upsert_ws_kline` in closed form. -/
lemma upsert_append_branch (cap : ℕ) (s : SymState) (c : Candle) (ot : ℤ)
    (closed : Bool) (ts : ℤ)
    (hcond : ¬(s.klines_1m ≠ [] ∧ s.last_ws_kline_open_time = some ot)) :
    upsert_ws_kline cap s c ot closed ts =
      { klines_1m := boundedAppend cap s.klines_1m c
        last_kline_close_ts := if closed then some ts else s.last_kline_close_ts
        last_ws_kline_open_time := some ot } := by
  unfold upsert_ws_kline
  rw [if_neg hcond]
  cases closed <;> rfl

/-- A single kline operation never pushes the buffer past the deque
capacity. -/
lemma applyOp_length_le (cap : ℕ) (s : SymState) (op : DataStoreOp)
    (h : s.klines_1m.length ≤ cap) : (applyOp cap s op).klines_1m.length ≤ cap := by
  cases op with
  | merge ks ts =>
    by_cases hks : ks = []
    · simp [applyOp, merge_klines, hks, h]
    · simp only [applyOp, merge_klines, hks, if_neg hks, if_false]
      simp only [List.length_drop]
      omega
  | upsert c ot closed ts =>
    show (upsert_ws_kline cap s c ot closed ts).klines_1m.length ≤ cap
    by_cases hcond : s.klines_1m ≠ [] ∧ s.last_ws_kline_open_time = some ot
    · rw [upsert_replace_branch cap s c ot closed ts hcond.1 hcond.2]
      have hlen : 0 < s.klines_1m.length := List.length_pos.mpr hcond.1
      simp only [List.length_append, List.length_dropLast, List.length_cons,
        List.length_nil]
      omega
    · rw [upsert_append_branch cap s c ot closed ts hcond]
      simp only [boundedAppend, List.length_drop, List.length_append,
        List.length_cons, List.length_nil]
      omega

/-- Sequences of operations preserve the capacity bound. -/
lemma applyOps_length_le (cap : ℕ) (ops : List DataStoreOp) :
    ∀ s : SymState, s.klines_1m.length ≤ cap →
      (applyOps cap ops s).klines_1m.length ≤ cap := by
  induction ops with
  | nil => intro s h; exact h
  | cons op rest ih =>
    intro s h
    exact ih _ (applyOp_length_le cap s op h)

/-- Claim C8: over every sequence of `merge_klines` / `upsert_ws_kline`
operations the kline buffer never exceeds its capacity; an upsert whose
open time matches the recorded last open time (with a nonempty buffer)
replaces the tail in place and preserves the length, otherwise it appends
and records the new open time; and `last_kline_close_ts` changes under
upsert only when `is_closed` is true. -/
theorem datastore_kline_buffer_spec (cap : ℕ) (ops : List DataStoreOp) :
    (applyOps cap ops initSymState).klines_1m.length ≤ cap ∧
    (∀ (s : SymState) (c : Candle) (ot : ℤ) (closed : Bool) (ts : ℤ),
        s.klines_1m ≠ [] → s.last_ws_kline_open_time = some ot →
        (upsert_ws_kline cap s c ot closed ts).klines_1m = s.klines_1m.dropLast ++ [c] ∧
        (upsert_ws_kline cap s c ot closed ts).klines_1m.length = s.klines_1m.length ∧
        (upsert_ws_kline cap s c ot closed ts).last_ws_kline_open_time
          = s.last_ws_kline_open_time) ∧
    (∀ (s : SymState) (c : Candle) (ot : ℤ) (closed : Bool) (ts : ℤ),
        ¬(s.klines_1m ≠ [] ∧ s.last_ws_kline_open_time = some ot) →
        (upsert_ws_kline cap s c ot closed ts).klines_1m = boundedAppend cap s.klines_1m c ∧
        (upsert_ws_kline cap s c ot closed ts).last_ws_kline_open_time = some ot) ∧
    (∀ (s : SymState) (c : Candle) (ot : ℤ) (ts : ℤ),
        (upsert_ws_kline cap s c ot false ts).last_kline_close_ts = s.last_kline_close_ts ∧
        (upsert_ws_kline cap s c ot true ts).last_kline_close_ts = some ts) := by
  refine ⟨applyOps_length_le cap ops initSymState (by simp [initSymState]), ?_, ?_, ?_⟩
  · intro s c ot closed ts hne hopen
    rw [upsert_replace_branch cap s c ot closed ts hne hopen]
    have hlen : 0 < s.klines_1m.length := List.length_pos.mpr hne
    refine ⟨rfl, ?_, rfl⟩
    simp only [List.length_append, List.length_dropLast, List.length_cons,
      List.length_nil]
    omega
  · intro s c ot closed ts hcond
    rw [upsert_append_branch cap s c ot closed ts hcond]
    exact ⟨rfl, rfl⟩
  · intro s c ot ts
    by_cases hcond : s.klines_1m ≠ [] ∧ s.last_ws_kline_open_time = some ot
    · rw [upsert_replace_branch cap s c ot false ts hcond.1 hcond.2,
        upsert_replace_branch cap s c ot true ts hcond.1 hcond.2]
      exact ⟨rfl, rfl⟩
    · rw [upsert_append_branch cap s c ot false ts hcond,
        upsert_append_branch cap s c ot true ts hcond]
      exact ⟨rfl, rfl⟩

/-- Witness for C8: a matching upsert replaces the tail in place. -/
theorem datastore_kline_buffer_spec_witness :
    (upsert_ws_kline 1440 ⟨[⟨1, 1, 1, 1⟩], none, some 5⟩ ⟨2, 2, 2, 2⟩ 5 false 9).klines_1m
      = [⟨2, 2, 2, 2⟩] := by
  have h := ((datastore_kline_buffer_spec 1440 []).2.1
    ⟨[⟨1, 1, 1, 1⟩], none, some 5⟩ ⟨2, 2, 2, 2⟩ 5 false 9 (by decide) rfl).1
  simpa using h

/-- `_switch_mode` always leaves the manager in the requested mode. -/
lemma switchMode_mode (s : SourceManagerState) (t : String) :
    (switchMode s t).mode = t := by
  unfold switchMode
  by_cases h : s.mode = t
  · rw [if_pos h]; exact h
  · rw [if_neg h]

/-- After a connection is in hand, the recovery tail either leaves the mode
untouched or — only with a successful state sync and the fresh-tick
threshold met — ends in ws mode. -/
lemma wsRecoverAfterConnect_mode (s1 : SourceManagerState) (now_mono : ℚ)
    (read_result : WsReadResult) (state_sync_ok : Bool) :
    (wsRecoverAfterConnect s1 now_mono read_result state_sync_ok).mode = s1.mode
    ∨ (state_sync_ok = true ∧ ∃ fresh, read_result = WsReadResult.events fresh ∧
        s1.ws_recover_good_ticks ≤ s1.ws_good_ticks + fresh ∧
        (wsRecoverAfterConnect s1 now_mono read_result state_sync_ok).mode = "ws") := by
  cases read_result with
  | failure => exact Or.inl rfl
  | events fresh =>
    unfold wsRecoverAfterConnect
    dsimp only
    by_cases hfresh : 0 < fresh
    · rw [if_pos hfresh]
      dsimp only
      by_cases hthr : s1.ws_recover_good_ticks ≤ s1.ws_good_ticks + fresh
      · rw [if_pos hthr]
        cases state_sync_ok with
        | false => rw [if_neg (by decide)]; exact Or.inl rfl
        | true =>
          rw [if_pos rfl]
          exact Or.inr ⟨rfl, fresh, rfl, hthr, switchMode_mode _ _⟩
      · rw [if_neg hthr]; exact Or.inl rfl
    · rw [if_neg hfresh]
      by_cases hthr : s1.ws_recover_good_ticks ≤ s1.ws_good_ticks
      · rw [if_pos hthr]
        cases state_sync_ok with
        | false => rw [if_neg (by decide)]; exact Or.inl rfl
        | true =>
          rw [if_pos rfl]
          refine Or.inr ⟨rfl, fresh, rfl, ?_, switchMode_mode _ _⟩
          omega
      · rw [if_neg hthr]; exact Or.inl rfl

/-- One recovery tick either leaves the mode untouched or — only with a
successful state sync and the fresh-tick threshold met — ends in ws mode. -/
lemma attempt_ws_recover_cases (s : SourceManagerState) (now_mono : ℚ)
    (connect_result : WsAttempt) (read_result : WsReadResult) (state_sync_ok : Bool)
    (hpref : s.preferred_mode = "ws") :
    (attempt_ws_recover s now_mono connect_result read_result state_sync_ok).mode = s.mode
    ∨ (state_sync_ok = true ∧ ∃ fresh, read_result = WsReadResult.events fresh ∧
        s.ws_recover_good_ticks ≤ s.ws_good_ticks + fresh ∧
        (attempt_ws_recover s now_mono connect_result read_result state_sync_ok).mode
          = "ws") := by
  unfold attempt_ws_recover
  rw [if_neg (show ¬(s.preferred_mode ≠ "ws") from not_not_intro hpref)]
  by_cases hretry : now_mono < s.ws_next_retry_at
  · rw [if_pos hretry]; exact Or.inl rfl
  · rw [if_neg hretry]
    by_cases hc : s.ws_connected = true
    · rw [if_pos hc]
      exact wsRecoverAfterConnect_mode s now_mono read_result state_sync_ok
    · rw [if_neg hc]
      cases connect_result with
      | success =>
        exact wsRecoverAfterConnect_mode
          { s with ws_connected := true, ws_backoff := s.ws_backoff_min }
          now_mono read_result state_sync_ok
      | failure => exact Or.inl rfl

/-- Claim C6: a rest-to-ws switch happens only on a tick where the
accumulated fresh-tick count has reached `ws_recover_good_ticks` and the
REST state sync has just succeeded; when the sync fails the mode stays
rest. -/
theorem ws_recover_requires_sync (s : SourceManagerState) (now_mono : ℚ)
    (connect_result : WsAttempt) (read_result : WsReadResult) (state_sync_ok : Bool)
    (hmode : s.mode = "rest") (hpref : s.preferred_mode = "ws") :
    ((attempt_ws_recover s now_mono connect_result read_result state_sync_ok).mode = "ws" →
       state_sync_ok = true ∧
       ∃ fresh, read_result = WsReadResult.events fresh ∧
         s.ws_recover_good_ticks ≤ s.ws_good_ticks + fresh) ∧
    (state_sync_ok = false →
       (attempt_ws_recover s now_mono connect_result read_result state_sync_ok).mode
         = "rest") := by
  rcases attempt_ws_recover_cases s now_mono connect_result read_result state_sync_ok hpref
    with h | ⟨hs, fresh, hr, hthr, _⟩
  · constructor
    · intro hws
      rw [h, hmode] at hws
      exact absurd hws (by decide)
    · intro _
      rw [h]
      exact hmode
  · constructor
    · intro _
      exact ⟨hs, fresh, hr, hthr⟩
    · intro hsync
      rw [hs] at hsync
      exact absurd hsync (by decide)

/-- Witness for C6: in a recovery-eligible state a failing state sync keeps
the mode at rest even though the fresh-tick threshold is met. -/
theorem ws_recover_requires_sync_witness :
    (attempt_ws_recover exSMState 5 WsAttempt.success (WsReadResult.events 1) false).mode
      = "rest" :=
  (ws_recover_requires_sync exSMState 5 WsAttempt.success (WsReadResult.events 1) false
    rfl rfl).2 rfl

/-- Claim C1 (code bug): with funding present the gate allows exactly when
the funding age is within threshold — the OI reading only sets the status
tag ("fresh" / "stale" / "unknown") and never blocks — but the emission
step `replace(card, oi_status=...)` of `evaluate_symbol` raises
`TypeError`, because `ProposalCard` declares no `oi_status` field, so the
tagged card is never produced. -/
theorem derivatives_gate_oi_tag_spec (snap : SymbolSnapshot) (now fs os f : ℤ)
    (hf : snap.funding_ts = some f) :
    ((derivatives_are_fresh snap now fs os).allow = true ↔ now - f ≤ fs) ∧
    ((derivatives_are_fresh snap now fs os).oi_status = "fresh" ∨
     (derivatives_are_fresh snap now fs os).oi_status = "stale" ∨
     (derivatives_are_fresh snap now fs os).oi_status = "unknown") ∧
    ∀ card : ProposalCard,
      evaluateSymbolEmit card (derivatives_are_fresh snap now fs os)
        = Except.error "TypeError: replace() got an unexpected keyword argument oi_status" := by
  have hgate : derivatives_are_fresh snap now fs os =
      { allow := !decide (fs < now - f)
        oi_status :=
          match raw_age_ms now snap.open_interest_ts with
          | none => "unknown"
          | some oir => if os < oir then "stale" else "fresh"
        funding_raw_age_ms := some (now - f)
        oi_raw_age_ms := raw_age_ms now snap.open_interest_ts
        reason := if fs < now - f then "funding_stale" else "ok" } := by
    unfold derivatives_are_fresh raw_age_ms
    rw [hf]
    rfl
  refine ⟨?_, ?_, ?_⟩
  · rw [hgate]
    simp [not_lt]
  · rw [hgate]
    rcases hoi : raw_age_ms now snap.open_interest_ts with _ | oir
    · exact Or.inr (Or.inr rfl)
    · dsimp only
      by_cases h : os < oir
      · rw [if_pos h]; exact Or.inr (Or.inl rfl)
      · rw [if_neg h]; exact Or.inl rfl
  · intro card
    unfold evaluateSymbolEmit dataclassReplaceOiStatus
    rw [if_neg (by decide)]

/-- Witness for C1: a concrete fresh-funding snapshot passes the gate, yet
attaching the OI tag to any card fails with the `TypeError`. -/
theorem derivatives_gate_oi_tag_witness :
    (derivatives_are_fresh exSnapshot 10 180000 30000).allow = true ∧
    evaluateSymbolEmit exCardA (derivatives_are_fresh exSnapshot 10 180000 30000)
      = Except.error "TypeError: replace() got an unexpected keyword argument oi_status" := by
  have h := derivatives_gate_oi_tag_spec exSnapshot 10 180000 30000 0 rfl
  exact ⟨h.1.mpr (by decide), h.2.2 exCardA⟩

/-- The population variance is nonnegative, so `pstdev l = √(pvarianceQ l)`
vanishes exactly when the variance does: the `sigma == 0` test of the
source is the variance-zero test. -/
lemma sqrt_pvariance_eq_zero_iff (l : List ℚ) :
    Real.sqrt ((pvarianceQ l : ℚ) : ℝ) = 0 ↔ pvarianceQ l = 0 := by
  have hnn : (0 : ℚ) ≤ pvarianceQ l := by
    unfold pvarianceQ
    apply div_nonneg
    · apply List.sum_nonneg
      intro x hx
      obtain ⟨y, _, rfl⟩ := List.mem_map.mp hx
      positivity
    · positivity
  constructor
  · intro h
    have hle : ((pvarianceQ l : ℚ) : ℝ) ≤ 0 := Real.sqrt_eq_zero'.mp h
    have hcast : ((pvarianceQ l : ℚ) : ℝ) = 0 := le_antisymm hle (by exact_mod_cast hnn)
    exact_mod_cast hcast
  · intro h
    rw [h]
    simp

/-- Length of the baseline slice `oi_windows[:-1][-bw:]`. -/
lemma zscoreBaseline_length (l : List ℚ) (bw : ℕ) (hbw : bw ≠ 0) :
    (zscoreBaseline l bw).length = min (l.length - 1) bw := by
  unfold zscoreBaseline
  rw [if_neg hbw]
  simp only [List.length_drop, List.length_dropLast]
  omega

/-- Counterexample for C4: the claim promises a defined z-score for every
input with at least 2 samples, but the source returns `None` for a
two-sample input (its baseline, which excludes the current sample, then
has fewer than 2 entries). -/
theorem oi_zscore_two_samples_counterexample :
    2 ≤ ([1, 2] : List ℚ).length ∧ compute_oi_zscore_15m [1, 2] 96 = none :=
  ⟨by decide, rfl⟩

/-- Claim C4 (amended): `compute_oi_zscore_15m(windows, 96)` is defined
exactly for inputs with at least 3 samples; the baseline is the up-to-96
samples preceding the current one; zero variance yields `0.0` and
otherwise the value is `(current - mean(baseline)) / pstdev(baseline)`. -/
theorem compute_oi_zscore_spec (l : List ℚ) :
    (l.length < 3 → compute_oi_zscore_15m l 96 = none) ∧
    (3 ≤ l.length →
      (zscoreBaseline l 96).length = min (l.length - 1) 96 ∧
      (pvarianceQ (zscoreBaseline l 96) = 0 → compute_oi_zscore_15m l 96 = some 0) ∧
      (pvarianceQ (zscoreBaseline l 96) ≠ 0 →
        compute_oi_zscore_15m l 96 =
          some ((((l.getLastD 0 : ℚ) : ℝ) - ((listMean (zscoreBaseline l 96) : ℚ) : ℝ)) /
            Real.sqrt ((pvarianceQ (zscoreBaseline l 96) : ℚ) : ℝ)))) := by
  have hblen : (zscoreBaseline l 96).length = min (l.length - 1) 96 :=
    zscoreBaseline_length l 96 (by norm_num)
  constructor
  · intro h3
    unfold compute_oi_zscore_15m
    by_cases h2 : l.length < 2
    · rw [if_pos h2]
    · rw [if_neg h2]
      dsimp only
      rw [if_pos (show (zscoreBaseline l 96).length < 2 by omega)]
  · intro h3
    refine ⟨hblen, ?_, ?_⟩
    · intro hvar
      unfold compute_oi_zscore_15m
      rw [if_neg (show ¬ l.length < 2 by omega)]
      dsimp only
      rw [if_neg (show ¬ (zscoreBaseline l 96).length < 2 by omega), if_pos hvar]
    · intro hvar
      unfold compute_oi_zscore_15m
      rw [if_neg (show ¬ l.length < 2 by omega)]
      dsimp only
      rw [if_neg (show ¬ (zscoreBaseline l 96).length < 2 by omega), if_neg hvar]

/-- Witness for C4: three equal samples give a zero-variance baseline and
the z-score `0.0`. -/
theorem compute_oi_zscore_spec_witness :
    compute_oi_zscore_15m [1, 1, 1] 96 = some 0 := by
  have h := (compute_oi_zscore_spec [1, 1, 1]).2 (by decide)
  have hb : zscoreBaseline [1, 1, 1] 96 = [1, 1] := rfl
  exact h.2.1 (by rw [hb]; norm_num [pvarianceQ, listMean])

/-- Counterexample for C9: with the return trigger satisfied and
`atr_15m = 0` the stop equals the entry, and `generate` surfaces the
`ValueError` of `calculate_position_usdt` instead of returning `None` —
there is no `try/except` in the strategy. -/
theorem vol_breakout_error_escapes_counterexample :
    VolBreakoutStrategy.generate exVolBreakout exContextZeroAtr
        = Except.error "Risk ratio must be positive" ∧
    VolBreakoutStrategy.generate exVolBreakout exContextZeroAtr ≠ Except.ok none := by
  have h : VolBreakoutStrategy.generate exVolBreakout exContextZeroAtr
      = Except.error "Risk ratio must be positive" := by
    unfold VolBreakoutStrategy.generate
    rw [if_neg (show ¬¬(exVolBreakout.return_threshold < |exContextZeroAtr.return_5m| ∨
        exContextZeroAtr.atr_15m_baseline * exVolBreakout.atr_spike_multiplier
          < exContextZeroAtr.atr_15m) from not_not_intro (Or.inl (by
            norm_num [exVolBreakout, exContextZeroAtr, abs_of_pos])))]
    have hstop : volBreakoutStop exContextZeroAtr = 100 := by
      norm_num [volBreakoutStop, volBreakoutSide, exContextZeroAtr]
    have hcalc : calculate_position_usdt exContextZeroAtr.price
        (volBreakoutStop exContextZeroAtr) exVolBreakout.max_risk_usdt
        = Except.error "Risk ratio must be positive" := by
      rw [hstop]
      norm_num [calculate_position_usdt, exContextZeroAtr]
    dsimp only
    rw [hcalc]
  refine ⟨h, ?_⟩
  rw [h]
  intro hc
  exact Except.noConfusion hc

/-- Claim C9 (amended): when a trigger fires but the computed risk ratio is
nonpositive, `calculate_position_usdt` fails at the call site with the
explicit `ValueError` condition, and the error propagates out of
`generate()` (the strategy does not convert it to `None`; only the tick
boundary handles it). -/
theorem vol_breakout_sizing_error_propagates (st : VolBreakoutStrategy)
    (sc : SignalContext)
    (htrig : st.return_threshold < |sc.return_5m| ∨
      sc.atr_15m_baseline * st.atr_spike_multiplier < sc.atr_15m)
    (hrr : |sc.price - volBreakoutStop sc| / sc.price ≤ 0) :
    VolBreakoutStrategy.generate st sc = Except.error "Risk ratio must be positive" := by
  unfold VolBreakoutStrategy.generate
  rw [if_neg (not_not_intro htrig)]
  have hcalc : calculate_position_usdt sc.price (volBreakoutStop sc) st.max_risk_usdt
      = Except.error "Risk ratio must be positive" := by
    unfold calculate_position_usdt
    rw [if_pos hrr]
  dsimp only
  rw [hcalc]

/-- Witness for C9 at the zero-ATR context. -/
theorem vol_breakout_sizing_error_witness :
    VolBreakoutStrategy.generate exVolBreakout exContextZeroAtr
      = Except.error "Risk ratio must be positive" :=
  vol_breakout_sizing_error_propagates exVolBreakout exContextZeroAtr
    (Or.inl (by norm_num [exVolBreakout, exContextZeroAtr, abs_of_pos]))
    (by norm_num [volBreakoutStop, volBreakoutSide, exContextZeroAtr])

/-- The chunking loop computes the index-wise front-aligned grouping:
chunk `i` covers positions `[i·w, i·w + w)`. -/
lemma aggGroups_eq_front_spec (w : ℕ) (hw : 0 < w) :
    ∀ (n : ℕ) (l : List Candle), l.length ≤ n →
      aggGroups w l = aggregate_front_spec l w := by
  intro n
  induction n with
  | zero =>
    intro l hl
    have hnil : l = [] := List.eq_nil_of_length_eq_zero (Nat.le_zero.mp hl)
    subst hnil
    rw [aggGroups, dif_neg (by omega)]
    simp [aggregate_front_spec]
  | succ n ih =>
    intro l hl
    rw [aggGroups]
    by_cases hc : 0 < w ∧ w ≤ l.length
    · rw [dif_pos hc]
      have hdroplen : (l.drop w).length ≤ n := by
        simp only [List.length_drop]; omega
      rw [ih (l.drop w) hdroplen]
      unfold aggregate_front_spec
      rw [List.length_drop]
      have hdiv : l.length / w = (l.length - w) / w + 1 :=
        Nat.div_eq_sub_div hw hc.2
      rw [hdiv, List.range_succ_eq_map, List.map_cons, List.map_map]
      congr 1
      · rw [Nat.zero_mul, List.drop_zero]
      · apply List.map_congr_left
        intro i _
        simp only [Function.comp_apply]
        rw [List.drop_drop, Nat.succ_mul, Nat.add_comm w (i * w)]
    · rw [dif_neg hc]
      have hlt : l.length < w := by omega
      unfold aggregate_front_spec
      rw [Nat.div_eq_of_lt hlt]
      rfl

/-- Counterexample for C3: on three distinguishable candles with window 2
the source groups from the FRONT (dropping the trailing remainder), not
from the end as the claim states: it returns the aggregate of the first
two candles, while end-alignment would aggregate the last two. -/
theorem aggregate_window_alignment_counterexample :
    aggregate_klines_to_window exCandles3 2 ≠ aggregate_end_spec exCandles3 2 := by
  have h1 : aggregate_klines_to_window exCandles3 2 = [⟨1, 2, 1, 2⟩] := by
    unfold aggregate_klines_to_window exCandles3
    rw [if_neg (by norm_num)]
    rw [aggGroups, dif_pos (by norm_num)]
    rw [aggGroups, dif_neg (by norm_num)]
    norm_num [aggChunk, List.getLastD, max_def, min_def]
  have h2 : aggregate_end_spec exCandles3 2 = [⟨2, 3, 2, 3⟩] := by
    unfold aggregate_end_spec exCandles3
    rw [if_neg (by norm_num)]
    norm_num
    rw [aggGroups, dif_pos (by norm_num)]
    rw [aggGroups, dif_neg (by norm_num)]
    norm_num [aggChunk, List.getLastD, max_def, min_def]
  rw [h1, h2]
  decide

/-- Claim C3 (amended): `aggregate_klines_to_window` groups the candles
into non-overlapping W-sized chunks aligned from the FRONT of the list, so
the incomplete remainder of `len mod W` candles at the END is dropped;
each chunk maps to `(first.open, max high, min low, last.close)`; when
`len < W` the result is empty. -/
theorem aggregate_klines_front_aligned (l : List Candle) (w : ℕ) (hw : 1 ≤ w) :
    (l.length < w → aggregate_klines_to_window l w = []) ∧
    aggregate_klines_to_window l w = aggregate_front_spec l w := by
  constructor
  · intro h
    unfold aggregate_klines_to_window
    rw [if_pos h]
  · unfold aggregate_klines_to_window
    by_cases h : l.length < w
    · rw [if_pos h]
      unfold aggregate_front_spec
      rw [Nat.div_eq_of_lt h]
      rfl
    · rw [if_neg h]
      exact aggGroups_eq_front_spec w hw l.length l le_rfl

/-- Witness for C3 at the three-candle list with window 2. -/
theorem aggregate_klines_front_aligned_witness :
    aggregate_klines_to_window exCandles3 2 = aggregate_front_spec exCandles3 2 :=
  (aggregate_klines_front_aligned exCandles3 2 (by decide)).2

/-- Lexicographic `≤` on key triples is total. -/
lemma keyLe_total (a b : ℤ × ℚ × ℤ) : keyLe a b ∨ keyLe b a := by
  unfold keyLe
  rcases lt_trichotomy a.1 b.1 with h | h | h
  · exact Or.inl (Or.inl h)
  · rcases lt_trichotomy a.2.1 b.2.1 with h2 | h2 | h2
    · exact Or.inl (Or.inr ⟨h, Or.inl h2⟩)
    · rcases le_total a.2.2 b.2.2 with h3 | h3
      · exact Or.inl (Or.inr ⟨h, Or.inr ⟨h2, h3⟩⟩)
      · exact Or.inr (Or.inr ⟨h.symm, Or.inr ⟨h2.symm, h3⟩⟩)
    · exact Or.inr (Or.inr ⟨h.symm, Or.inl h2⟩)
  · exact Or.inr (Or.inl h)

/-- Lexicographic `≤` on key triples is transitive. -/
lemma keyLe_trans {a b c : ℤ × ℚ × ℤ} (h1 : keyLe a b) (h2 : keyLe b c) :
    keyLe a c := by
  unfold keyLe at h1 h2 ⊢
  rcases h1 with h1 | ⟨e1, h1'⟩
  · rcases h2 with h2 | ⟨e2, _⟩
    · exact Or.inl (h1.trans h2)
    · exact Or.inl (lt_of_lt_of_eq h1 e2)
  · rcases h2 with h2 | ⟨e2, h2'⟩
    · exact Or.inl (lt_of_eq_of_lt e1 h2)
    · refine Or.inr ⟨e1.trans e2, ?_⟩
      rcases h1' with h1' | ⟨f1, h1''⟩
      · rcases h2' with h2' | ⟨f2, _⟩
        · exact Or.inl (h1'.trans h2')
        · exact Or.inl (lt_of_lt_of_eq h1' f2)
      · rcases h2' with h2' | ⟨f2, h2''⟩
        · exact Or.inl (lt_of_eq_of_lt f1 h2')
        · exact Or.inr ⟨f1.trans f2, le_trans h1'' h2''⟩

/-- Lexicographic `≤` on key triples is antisymmetric. -/
lemma keyLe_antisymm : ∀ {a b : ℤ × ℚ × ℤ}, keyLe a b → keyLe b a → a = b := by
  rintro ⟨a1, a2, a3⟩ ⟨b1, b2, b3⟩ h1 h2
  unfold keyLe at h1 h2
  dsimp only at h1 h2
  have e1 : a1 = b1 := by
    rcases h1 with h | ⟨h, _⟩
    · rcases h2 with h2 | ⟨h2, _⟩
      · exact absurd h2 (lt_asymm h)
      · exact h2.symm
    · exact h
  subst e1
  have h1' : a2 < b2 ∨ (a2 = b2 ∧ a3 ≤ b3) := by
    rcases h1 with h | ⟨_, h⟩
    · exact absurd h (lt_irrefl _)
    · exact h
  have h2' : b2 < a2 ∨ (b2 = a2 ∧ b3 ≤ a3) := by
    rcases h2 with h | ⟨_, h⟩
    · exact absurd h (lt_irrefl _)
    · exact h
  have e2 : a2 = b2 := by
    rcases h1' with h | ⟨h, _⟩
    · rcases h2' with h2 | ⟨h2, _⟩
      · exact absurd h2 (lt_asymm h)
      · exact h2.symm
    · exact h
  subst e2
  have e3 : a3 = b3 := by
    rcases h1' with h | ⟨_, h⟩
    · exact absurd h (lt_irrefl _)
    · rcases h2' with h2 | ⟨_, h2⟩
      · exact absurd h2 (lt_irrefl _)
      · exact le_antisymm h h2
  subst e3
  rfl

instance : IsTotal ProposalCard cardDescLe :=
  ⟨fun a b => keyLe_total (sortKey b) (sortKey a)⟩

instance : IsTrans ProposalCard cardDescLe :=
  ⟨fun _ _ _ h1 h2 => keyLe_trans h2 h1⟩

/-- Two sorted lists that are permutations of each other agree, provided no
two distinct members share a sort key (the relation is then antisymmetric
on the members). -/
lemma sorted_perm_eq : ∀ (l1 l2 : List ProposalCard),
    (∀ a ∈ l1, ∀ b ∈ l1, sortKey a = sortKey b → a = b) →
    l1.Perm l2 → l1.Sorted cardDescLe → l2.Sorted cardDescLe → l1 = l2 := by
  intro l1
  induction l1 with
  | nil =>
    intro l2 _ hp _ _
    exact (List.Perm.eq_nil hp.symm).symm
  | cons a t1 ih =>
    intro l2 hinj hp hs1 hs2
    cases l2 with
    | nil => exact absurd (List.Perm.eq_nil hp) (by simp)
    | cons b t2 =>
      have hab : a = b := by
        have ha2 : a ∈ b :: t2 := hp.mem_iff.mp (List.mem_cons_self a t1)
        have hb1 : b ∈ a :: t1 := hp.symm.mem_iff.mp (List.mem_cons_self b t2)
        rcases List.mem_cons.mp ha2 with h | ha2'
        · exact h
        · rcases List.mem_cons.mp hb1 with h | hb1'
          · exact h.symm
          · have rba : cardDescLe b a := List.rel_of_sorted_cons hs2 a ha2'
            have rab : cardDescLe a b := List.rel_of_sorted_cons hs1 b hb1'
            exact hinj a (List.mem_cons_self a t1) b (List.mem_cons_of_mem a hb1')
              (keyLe_antisymm rba rab)
      subst hab
      have hinj' : ∀ x ∈ t1, ∀ y ∈ t1, sortKey x = sortKey y → x = y :=
        fun x hx y hy => hinj x (List.mem_cons_of_mem a hx) y (List.mem_cons_of_mem a hy)
      rw [ih t2 hinj' hp.cons_inv hs1.of_cons hs2.of_cons]

/-- The stable sort of the candidate list depends only on its multiset of
cards when the sort key is injective on the members. -/
lemma insertionSort_perm_eq {l1 l2 : List ProposalCard}
    (hinj : ∀ a ∈ l1, ∀ b ∈ l1, sortKey a = sortKey b → a = b)
    (hp : l1.Perm l2) :
    List.insertionSort cardDescLe l1 = List.insertionSort cardDescLe l2 := by
  apply sorted_perm_eq
  · intro a ha b hb
    exact hinj a ((List.perm_insertionSort cardDescLe l1).mem_iff.mp ha)
      b ((List.perm_insertionSort cardDescLe l1).mem_iff.mp hb)
  · exact ((List.perm_insertionSort cardDescLe l1).trans hp).trans
      (List.perm_insertionSort cardDescLe l2).symm
  · exact List.sorted_insertionSort cardDescLe l1
  · exact List.sorted_insertionSort cardDescLe l2

/-- Counterexample for C5: two distinct cards that tie on the whole sort
key and are entry-similar.  The stable sort keeps the input order, the
similarity dedupe drops the later card, and the winner is whichever card
came first — permuting the input changes the result. -/
theorem choose_best_order_dependent_counterexample :
    ([exCardA, exCardB] : List ProposalCard).Perm [exCardB, exCardA] ∧
    choose_best exArbConfig none 0 [exCardA, exCardB]
      ≠ choose_best exArbConfig none 0 [exCardB, exCardA] := by
  refine ⟨by decide, ?_⟩
  have hA : choose_best exArbConfig none 0 [exCardA, exCardB] = some exCardA := by
    norm_num [choose_best, dedupeWindowHit, dedupe_similar, dedupeKeep, isSimilar,
      cardDescLe, keyLe, sortKey, List.insertionSort, List.orderedInsert,
      exArbConfig, exCardA, exCardB, max_def]
    intro h
    exact absurd h (List.cons_ne_nil _ _)
  have hB : choose_best exArbConfig none 0 [exCardB, exCardA] = some exCardB := by
    norm_num [choose_best, dedupeWindowHit, dedupe_similar, dedupeKeep, isSimilar,
      cardDescLe, keyLe, sortKey, List.insertionSort, List.orderedInsert,
      exArbConfig, exCardA, exCardB, max_def]
    intro h
    exact absurd h (List.cons_ne_nil _ _)
  rw [hA, hB]
  intro h
  have : exCardA = exCardB := Option.some.inj h
  exact absurd this (by decide)

/-- Claim C5 (amended): `choose_best` is invariant under permutation of the
candidate list whenever no two distinct candidates share the full sort key
`(priority, confidence, -ttl)`; with key ties among distinct cards the
stable sort falls back to the input order and the invariance fails (see
the counterexample). -/
theorem choose_best_perm_invariant (cfg : ArbitratorConfig) (last_sent : Option ℚ)
    (ctx_timestamp : ℚ) (l1 l2 : List ProposalCard) (hp : l1.Perm l2)
    (hinj : ∀ a ∈ l1, ∀ b ∈ l1, sortKey a = sortKey b → a = b) :
    choose_best cfg last_sent ctx_timestamp l1
      = choose_best cfg last_sent ctx_timestamp l2 := by
  have hsort := insertionSort_perm_eq hinj hp
  have hsel : dedupe_similar cfg l1 = dedupe_similar cfg l2 := by
    unfold dedupe_similar
    rw [hsort]
  unfold choose_best
  by_cases h1 : l1 = []
  · subst h1
    have h2 : l2 = [] := List.Perm.eq_nil hp.symm
    rw [h2]
  · have h2 : l2 ≠ [] := by
      intro hl2
      subst hl2
      exact h1 (List.Perm.eq_nil hp)
    rw [if_neg h1, if_neg h2, hsel]

/-- Witness for C5 on two cards with distinct keys. -/
theorem choose_best_perm_invariant_witness :
    ([exCardA, exCardLo] : List ProposalCard).Perm [exCardLo, exCardA] ∧
    choose_best exArbConfig none 0 [exCardA, exCardLo]
      = choose_best exArbConfig none 0 [exCardLo, exCardA] :=
  ⟨by decide,
   choose_best_perm_invariant exArbConfig none 0 [exCardA, exCardLo]
     [exCardLo, exCardA] (by decide) (by decide)⟩

end DarkAlpha
